import Mathlib

/-!
Verification of the ProjectScaffolder generation-and-deployment pipeline.

Shallow embedding of the core modules:
* `supabase/triggers.sql` — project status transition validation and the
  generation/deployment completion triggers;
* `src/lib/ai/index.ts` — the code-generation response parser (with a small
  executable JSON parser standing in for `JSON.parse` and the brace-block
  regex extraction);
* `src/lib/deploy/vercel.ts` and `src/lib/deploy/index.ts` — the Vercel
  service, the provider dispatch, and the full deployment pipeline;
* `src/lib/deploy` `GitHubService.pushFiles` — the temp-directory discipline;
* `src/app/api/generate/route.ts` — the generation and deployment request
  flows, modelled as sequences of datastore operations (each of which fires
  the SQL triggers) and external calls, driven by an outcome oracle.
-/

namespace ProjectScaffolder

/-- Decidable equality of `Except` results, so finite checks over outcomes can
    be settled by `decide`. -/
instance {ε α : Type} [DecidableEq ε] [DecidableEq α] : DecidableEq (Except ε α)
  | .ok a, .ok b =>
    if h : a = b then .isTrue (by rw [h])
    else .isFalse (fun hc => h (Except.ok.injEq .. ▸ hc))
  | .ok _, .error _ => .isFalse (fun hc => Except.noConfusion hc)
  | .error _, .ok _ => .isFalse (fun hc => Except.noConfusion hc)
  | .error e, .error f =>
    if h : e = f then .isTrue (by rw [h])
    else .isFalse (fun hc => h (Except.error.injEq .. ▸ hc))

/-! ## Project status state machine (supabase/triggers.sql) -/

/-- `project_status` enum from `supabase/migrations/00001_create_enums.sql`. -/
inductive ProjStatus where
  | DRAFT | GENERATING | GENERATED | DEPLOYING | DEPLOYED | FAILED
deriving DecidableEq, Repr, Fintype

/-- Text of a status value, as PostgreSQL renders it in the error message. -/
def projStatusText : ProjStatus → String
  | .DRAFT => "DRAFT"
  | .GENERATING => "GENERATING"
  | .GENERATED => "GENERATED"
  | .DEPLOYING => "DEPLOYING"
  | .DEPLOYED => "DEPLOYED"
  | .FAILED => "FAILED"

/-- The `valid_transitions` jsonb constant in `trigger_validate_project_status`
    (supabase/triggers.sql, lines 238-245). -/
def validTargets : ProjStatus → List ProjStatus
  | .DRAFT => [.GENERATING, .FAILED]
  | .GENERATING => [.GENERATED, .FAILED]
  | .GENERATED => [.DEPLOYING, .DRAFT, .FAILED]
  | .DEPLOYING => [.DEPLOYED, .FAILED]
  | .DEPLOYED => [.DEPLOYING, .DRAFT]
  | .FAILED => [.DRAFT, .GENERATING, .DEPLOYING]

/-- The message raised by `RAISE EXCEPTION 'Invalid project status transition
    from % to %', OLD.status, NEW.status`. -/
def transitionErrorMsg (old new : ProjStatus) : String :=
  "Invalid project status transition from " ++ projStatusText old ++
    " to " ++ projStatusText new

/-- `trigger_validate_project_status` (supabase/triggers.sql, lines 230-259):
    same status is always allowed; otherwise the target must appear in the
    `valid_transitions` row for the old status, or the trigger raises. -/
def trigger_validate_project_status (old new : ProjStatus) :
    Except String ProjStatus :=
  if old = new then .ok new
  else if new ∈ validTargets old then .ok new
  else .error (transitionErrorMsg old new)

/-- Modelled from the spec: the `(from, to)` pairs the spec's §4.6 narrative
    enumerates (the linear chain DRAFT→GENERATING→GENERATED→DEPLOYING→DEPLOYED,
    FAILED reachable from GENERATING or DEPLOYING, and FAILED back to DRAFT,
    GENERATING or DEPLOYING). Used only to compare the spec's table with the
    code's. -/
def specLegalPairs : List (ProjStatus × ProjStatus) :=
  [(.DRAFT, .GENERATING), (.GENERATING, .GENERATED), (.GENERATED, .DEPLOYING),
   (.DEPLOYING, .DEPLOYED), (.GENERATING, .FAILED), (.DEPLOYING, .FAILED),
   (.FAILED, .DRAFT), (.FAILED, .GENERATING), (.FAILED, .DEPLOYING)]

/-- The `(from, to)` pairs with `from ≠ to` that the code's transition table
    actually lists, written out extensionally. -/
def codeLegalPairs : List (ProjStatus × ProjStatus) :=
  [(.DRAFT, .GENERATING), (.DRAFT, .FAILED),
   (.GENERATING, .GENERATED), (.GENERATING, .FAILED),
   (.GENERATED, .DEPLOYING), (.GENERATED, .DRAFT), (.GENERATED, .FAILED),
   (.DEPLOYING, .DEPLOYED), (.DEPLOYING, .FAILED),
   (.DEPLOYED, .DEPLOYING), (.DEPLOYED, .DRAFT),
   (.FAILED, .DRAFT), (.FAILED, .GENERATING), (.FAILED, .DEPLOYING)]

/-- C1 (counterexample): the trigger accepts transitions the spec's table does
    not list — all five of DRAFT→FAILED, GENERATED→DRAFT, GENERATED→FAILED,
    DEPLOYED→DEPLOYING and DEPLOYED→DRAFT are accepted, each with distinct
    endpoints, none of them in the spec's enumeration. So "accepts exactly the
    spec-enumerated transitions plus no-ops" is false. -/
theorem c1_spec_table_too_small :
    trigger_validate_project_status .DRAFT .FAILED = .ok .FAILED ∧
    trigger_validate_project_status .GENERATED .DRAFT = .ok .DRAFT ∧
    trigger_validate_project_status .GENERATED .FAILED = .ok .FAILED ∧
    trigger_validate_project_status .DEPLOYED .DEPLOYING = .ok .DEPLOYING ∧
    trigger_validate_project_status .DEPLOYED .DRAFT = .ok .DRAFT ∧
    (ProjStatus.DRAFT, ProjStatus.FAILED) ∉ specLegalPairs ∧
    (ProjStatus.GENERATED, ProjStatus.DRAFT) ∉ specLegalPairs ∧
    (ProjStatus.GENERATED, ProjStatus.FAILED) ∉ specLegalPairs ∧
    (ProjStatus.DEPLOYED, ProjStatus.DEPLOYING) ∉ specLegalPairs ∧
    (ProjStatus.DEPLOYED, ProjStatus.DRAFT) ∉ specLegalPairs ∧
    ProjStatus.DRAFT ≠ ProjStatus.FAILED := by
  decide

/-- C1 (amended): the transition check accepts exactly the table actually in
    the code — the spec's enumerated pairs plus DRAFT→FAILED, GENERATED→DRAFT,
    GENERATED→FAILED, DEPLOYED→DEPLOYING, DEPLOYED→DRAFT — together with every
    same-state no-op; every other pair is rejected with the error naming the
    attempted from and to statuses. -/
theorem c1_transition_table_exact :
    ∀ a b : ProjStatus,
      trigger_validate_project_status a b =
        (if a = b ∨ (a, b) ∈ codeLegalPairs then .ok b
         else .error (transitionErrorMsg a b)) := by
  decide

/-! ## Code generation response parser (src/lib/ai/index.ts, lines 165-188)

`parseCodeGenerationResponse` matches the greedy brace-delimited regex
`\{[\s\S]*"files"[\s\S]*\}` against the raw LLM text, runs `JSON.parse` on the
match, requires a `files` array, and maps each element to its `path`/`content`
properties. `JSON.parse` itself is a JavaScript builtin; it is embedded here as
an executable JSON parser over the RFC 8259 grammar (numbers kept as their
lexemes, since no value-level number semantics is ever used). -/

/-- A parsed JSON value. `num` keeps the numeric lexeme verbatim. -/
inductive Json where
  | null
  | bool (b : Bool)
  | num (lexeme : String)
  | str (s : String)
  | arr (items : List Json)
  | obj (members : List (String × Json))

/-- JSON insignificant whitespace, by code point (space, tab, LF, CR). -/
def jsonWs (c : Char) : Bool :=
  c.toNat = 32 || c.toNat = 9 || c.toNat = 10 || c.toNat = 13

def jskipWs (input : List Char) : List Char :=
  match input with
  | [] => []
  | first :: tail => if jsonWs first then jskipWs tail else input

/-- A decimal digit, by code point. -/
def jsonDigit (c : Char) : Bool := 48 ≤ c.toNat && c.toNat ≤ 57

/-- Longest digit span at the head of the input, with the remainder. -/
def spanDigits (input : List Char) : List Char × List Char :=
  match input with
  | [] => ([], [])
  | first :: tail =>
    if jsonDigit first then
      match spanDigits tail with
      | (ds, rest) => (first :: ds, rest)
    else ([], input)

/-- Value of one hex digit, by code-point ranges. -/
def hexDigitVal (c : Char) : Option Nat :=
  if jsonDigit c then some (c.toNat - 48)
  else if 97 ≤ c.toNat && c.toNat ≤ 102 then some (c.toNat - 87)
  else if 65 ≤ c.toNat && c.toNat ≤ 70 then some (c.toNat - 55)
  else none

/-- Single-character JSON escapes. -/
def jsonEscape (c : Char) : Option Char :=
  if c = 'n' then some '\n'
  else if c = 't' then some '\t'
  else if c = 'r' then some '\r'
  else if c = '"' then some '"'
  else if c = '\\' then some '\\'
  else if c = '/' then some '/'
  else if c = 'b' then some (Char.ofNat 0x08)
  else if c = 'f' then some (Char.ofNat 0x0c)
  else none

/-- String body after the opening quote: ends at the closing quote, decodes
    escapes, rejects raw control characters (as `JSON.parse` does). -/
def jstringBody (out : List Char) : List Char → Option (String × List Char)
  | [] => none
  | '"' :: more => some (String.mk out.reverse, more)
  | '\\' :: esc =>
    match esc with
    | 'u' :: h1 :: h2 :: h3 :: h4 :: more =>
      match hexDigitVal h1, hexDigitVal h2, hexDigitVal h3, hexDigitVal h4 with
      | some a, some b, some c, some d =>
        jstringBody (Char.ofNat (a * 0x1000 + b * 0x100 + c * 0x10 + d) :: out)
          more
      | _, _, _, _ => none
    | e :: more =>
      match jsonEscape e with
      | some decoded => jstringBody (decoded :: out) more
      | none => none
    | [] => none
  | raw :: more =>
    if raw.toNat < 32 then none else jstringBody (raw :: out) more

/-- Optional fraction part, returned as its lexeme. -/
def jsonFracPart : List Char → Option (List Char × List Char)
  | '.' :: r =>
    let (d, r2) := spanDigits r
    if d.isEmpty then none else some ('.' :: d, r2)
  | cs => some ([], cs)

/-- Optional exponent part, returned as its lexeme. -/
def jsonExpPart : List Char → Option (List Char × List Char)
  | c :: r =>
    if c = 'e' || c = 'E' then
      let (sgn, r2) :=
        match r with
        | s :: rr => if s = '+' || s = '-' then ([s], rr) else (([] : List Char), s :: rr)
        | [] => ([], [])
      let (d, r3) := spanDigits r2
      if d.isEmpty then none else some (c :: (sgn ++ d), r3)
    else some ([], c :: r)
  | [] => some ([], [])

/-- A JSON number: `-? (0 | [1-9][0-9]*) frac? exp?`, kept as a lexeme. -/
def jsonNumberLexeme (cs : List Char) : Option (List Char × List Char) :=
  let (sign, cs1) :=
    match cs with
    | '-' :: r => (['-'], r)
    | _ => ([], cs)
  match cs1 with
  | '0' :: r =>
    match jsonFracPart r with
    | none => none
    | some (fr, r2) =>
      match jsonExpPart r2 with
      | none => none
      | some (ex, r3) => some (sign ++ '0' :: (fr ++ ex), r3)
  | c :: r =>
    if jsonDigit c && c ≠ '0' then
      let (d, r2) := spanDigits r
      match jsonFracPart r2 with
      | none => none
      | some (fr, r3) =>
        match jsonExpPart r3 with
        | none => none
        | some (ex, r4) => some (sign ++ c :: (d ++ fr ++ ex), r4)
    else none
  | [] => none

mutual

/-- One JSON value, fuel-bounded recursive descent. -/
def jparseValue : Nat → List Char → Option (Json × List Char)
  | 0, _ => none
  | fuel + 1, cs =>
    match jskipWs cs with
    | 'n' :: 'u' :: 'l' :: 'l' :: r => some (.null, r)
    | 't' :: 'r' :: 'u' :: 'e' :: r => some (.bool true, r)
    | 'f' :: 'a' :: 'l' :: 's' :: 'e' :: r => some (.bool false, r)
    | '"' :: r =>
      match jstringBody [] r with
      | some (s, r2) => some (.str s, r2)
      | none => none
    | '[' :: r =>
      match jskipWs r with
      | ']' :: r2 => some (.arr [], r2)
      | r2 => jparseItems fuel r2 []
    | '{' :: r =>
      match jskipWs r with
      | '}' :: r2 => some (.obj [], r2)
      | r2 => jparseMembers fuel r2 []
    | cs2 =>
      match jsonNumberLexeme cs2 with
      | some (lex, r) => some (.num (String.mk lex), r)
      | none => none

/-- Comma-separated array items, after at least one item is known to follow. -/
def jparseItems : Nat → List Char → List Json → Option (Json × List Char)
  | 0, _, _ => none
  | fuel + 1, cs, acc =>
    match jparseValue fuel cs with
    | none => none
    | some (v, r) =>
      match jskipWs r with
      | ',' :: r2 => jparseItems fuel r2 (v :: acc)
      | ']' :: r2 => some (.arr (v :: acc).reverse, r2)
      | _ => none

/-- Comma-separated object members, after at least one member is known to
    follow. Duplicate keys are kept; lookups take the last, as `JSON.parse`
    does. -/
def jparseMembers :
    Nat → List Char → List (String × Json) → Option (Json × List Char)
  | 0, _, _ => none
  | fuel + 1, cs, acc =>
    match jskipWs cs with
    | '"' :: r =>
      match jstringBody [] r with
      | none => none
      | some (k, r2) =>
        match jskipWs r2 with
        | ':' :: r3 =>
          match jparseValue fuel r3 with
          | none => none
          | some (v, r4) =>
            match jskipWs r4 with
            | ',' :: r5 => jparseMembers fuel r5 ((k, v) :: acc)
            | '}' :: r5 => some (.obj ((k, v) :: acc).reverse, r5)
            | _ => none
        | _ => none
    | _ => none

end

/-- Fuel ample for any input of the given length. -/
def jsonFuel (s : String) : Nat := 4 * s.length + 16

/-- `JSON.parse`: one value, possibly surrounded by whitespace, consuming the
    entire input. -/
def jsonParse (s : String) : Option Json :=
  match jparseValue (jsonFuel s) s.data with
  | some (v, rest) => if jskipWs rest = [] then some v else none
  | none => none

/-! ### The `\{[\s\S]*"files"[\s\S]*\}` extraction

The regex finds the leftmost `{` from which a match is possible, and — both
quantifiers being greedy — extends the match to the last `}` that still has an
occurrence of the literal `"files"` strictly between the braces. -/

/-- The literal token `"files"` (seven characters, quotes included). -/
def filesToken : List Char := ['"', 'f', 'i', 'l', 'e', 's', '"']

/-- Does `"files"` occur starting at position `p`? -/
def filesTokenAt (s : List Char) (p : Nat) : Bool :=
  filesToken.isPrefixOf (s.drop p)

/-- Greedy match end for a match starting at `i`: the last `}` preceded (after
    position `i`) by a full `"files"` occurrence. -/
def matchEndFrom (s : List Char) (i : Nat) : Option Nat :=
  ((List.range s.length).filter fun k =>
    (s.get? k == some '}') &&
      (List.range s.length).any fun p =>
        decide (i < p) && decide (p + 7 ≤ k) && filesTokenAt s p).getLast?

/-- Leftmost `{` from which the pattern can match. -/
def matchStartPos (s : List Char) : Option Nat :=
  ((List.range s.length).filter fun i =>
    (s.get? i == some '{') && (matchEndFrom s i).isSome).head?

/-- `response.match(/\{[\s\S]*"files"[\s\S]*\}/)`: the matched substring. -/
def extractFilesBlock (s : String) : Option String :=
  match matchStartPos s.data with
  | none => none
  | some i =>
    match matchEndFrom s.data i with
    | none => none
    | some k => some (String.mk ((s.data.drop i).take (k + 1 - i)))

/-- JavaScript property read on a parsed JSON value: throws a `TypeError` on
    `null`, yields the last binding on objects (`JSON.parse` keeps the last
    duplicate), and `undefined` (here `none`) on everything else. -/
def jsGetProp (v : Json) (k : String) : Except String (Option Json) :=
  match v with
  | .null => .error "TypeError: cannot read properties of null"
  | .obj kvs =>
    .ok (kvs.foldl (fun acc kv => if kv.fst = k then some kv.snd else acc) none)
  | _ => .ok none

/-- `file => (\x7b path: file.path, content: file.content \x7d)`: each mapped
    element is the pair of its `path` and `content` properties. -/
def readFileEntry (v : Json) : Except String (Option Json × Option Json) := do
  let p ← jsGetProp v "path"
  let c ← jsGetProp v "content"
  pure (p, c)

/-- The body of the `try` in `parseCodeGenerationResponse`: extract the brace
    block containing `"files"`, `JSON.parse` it, require `files` to be an
    array, and map each element to its `path`/`content` pair. Each failure
    carries its specific cause. -/
def parseCodeGenerationResponseInner (response : String) :
    Except String (List (Option Json × Option Json)) := do
  let block ← match extractFilesBlock response with
    | some b => pure b
    | none => Except.error "No valid JSON found in response"
  let parsed ← match jsonParse block with
    | some v => pure v
    | none => Except.error "Unexpected token in JSON"
  let filesField ← jsGetProp parsed "files"
  match filesField with
  | some (.arr items) => items.mapM readFileEntry
  | _ => Except.error "Response does not contain files array"

/-- The single collapsed error of the `catch` branch. -/
def collapsedParseError : String := "Failed to parse generated code response"

/-- `parseCodeGenerationResponse` (src/lib/ai/index.ts): the `try` body above,
    with every failure collapsed by the `catch` into the one opaque error (the
    cause is only logged). -/
def parseCodeGenerationResponse (response : String) :
    Except String (List (Option Json × Option Json)) :=
  match parseCodeGenerationResponseInner response with
  | .ok files => .ok files
  | .error _ => .error collapsedParseError

/-- The response body that is exactly the text `{"files":[]}`. -/
def emptyFilesResponse : String := "\x7b\"files\":[]\x7d"

/-- A response with no JSON object at all. -/
def proseOnlyResponse : String := "I could not produce any code for this."

/-- A response whose brace block contains `"files"` but is not valid JSON. -/
def invalidJsonResponse : String := "\x7b\"files\": [1, \x7d"

/-- A response whose `files` field is present but not an array. -/
def filesNotArrayResponse : String := "\x7b\"files\": 5\x7d"

/-- C7: parsing the response that is exactly `{"files":[]}` succeeds with the
    empty file list, not an error. -/
theorem c7_empty_files_array_ok :
    parseCodeGenerationResponse emptyFilesResponse = .ok [] := by
  rfl

/-- C8: every failing input produces the single collapsed parse error — the
    parser either succeeds or fails with exactly that message — and each of the
    three failure causes (no brace block with `"files"`, invalid JSON in the
    matched block, `files` not an array) does fail with it; the underlying
    cause never appears in the raised error. -/
theorem c8_parse_failure_collapses :
    (∀ s : String, (∃ fs, parseCodeGenerationResponse s = .ok fs) ∨
      parseCodeGenerationResponse s = .error collapsedParseError) ∧
    parseCodeGenerationResponse proseOnlyResponse = .error collapsedParseError ∧
    parseCodeGenerationResponse invalidJsonResponse = .error collapsedParseError ∧
    parseCodeGenerationResponse filesNotArrayResponse =
      .error collapsedParseError := by
  refine ⟨fun s => ?_, by rfl, by rfl, by rfl⟩
  unfold parseCodeGenerationResponse
  cases parseCodeGenerationResponseInner s with
  | ok fs => exact Or.inl ⟨fs, rfl⟩
  | error e => exact Or.inr rfl

/-! ## Vercel service and deploy dispatch (src/lib/deploy/vercel.ts, index.ts)

The network is modelled by an environment of request outcomes; every embedded
operation additionally returns how many network requests it issued, so
"no I/O performed" is a provable statement. Polling time is modelled by the
poll index: `getDeployment` is instantaneous and each loop iteration sleeps
5000 ms, so the `Date.now() - startTime < timeout` guard admits exactly
`⌈timeout / 5000⌉` polls. -/

/-- Vercel deployment states (vercel.ts, `VercelDeployment.state`). -/
inductive VercelState where
  | QUEUED | BUILDING | READY | ERROR | CANCELED
deriving DecidableEq, Repr, Fintype

/-- The state as it prints inside the thrown error message. -/
def vercelStateText : VercelState → String
  | .QUEUED => "QUEUED"
  | .BUILDING => "BUILDING"
  | .READY => "READY"
  | .ERROR => "ERROR"
  | .CANCELED => "CANCELED"

/-- A state the wait loop stops at. -/
def isTerminalVState : VercelState → Bool
  | .READY => true
  | .ERROR => true
  | .CANCELED => true
  | _ => false

structure VercelDeployment where
  id : String
  url : String
  state : VercelState
deriving DecidableEq, Repr

structure VercelProject where
  id : String
  name : String
deriving DecidableEq, Repr

/-- `VercelService.waitForDeployment`'s polling loop body (vercel.ts, lines
    189-211), driven by the outcome of each `getDeployment` request and fuel
    equal to the number of polls the timeout admits. Returns the result and
    the running request count. -/
def waitForDeploymentGo (getDep : Nat → Except String VercelDeployment) :
    Nat → Nat → Nat → Except String VercelDeployment × Nat
  | _, calls, 0 => (.error "Deployment timed out", calls)
  | k, calls, fuel + 1 =>
    match getDep k with
    | .error e => (.error e, calls + 1)
    | .ok d =>
      if d.state = .READY then (.ok d, calls + 1)
      else if d.state = .ERROR ∨ d.state = .CANCELED then
        (.error ("Deployment failed with state: " ++ vercelStateText d.state),
          calls + 1)
      else waitForDeploymentGo getDep (k + 1) (calls + 1) fuel

/-- Number of polls admitted by `while (Date.now() - startTime < timeout)`
    with a 5000 ms sleep per iteration: iterations start at elapsed
    `5000·k < timeout`. -/
def pollBudget (timeoutMs : Nat) : Nat := (timeoutMs + 4999) / 5000

/-- `VercelService.waitForDeployment(deploymentId, timeout)`. -/
def waitForDeployment (getDep : Nat → Except String VercelDeployment)
    (timeoutMs : Nat) : Except String VercelDeployment × Nat :=
  waitForDeploymentGo getDep 0 0 (pollBudget timeoutMs)

/-- The `DeploymentConfig` record (src/types): provider name, project name,
    optional env-variable map and build overrides. -/
structure DeploymentConfig where
  provider : String
  projectName : String
  envVariables : Option (List (String × String))
  buildCommand : Option String
  outputDirectory : Option String

/-- Outcomes of the Vercel API requests `deployToVercel` can issue. -/
structure VercelEnv where
  tokenPresent : Bool
  getProjectResult : Except String (Option VercelProject)
  createProjectResult : Except String VercelProject
  setEnvResult : Except String Unit
  createDeploymentResult : Except String VercelDeployment
  pollResult : Nat → Except String VercelDeployment

/-- The `DeploymentResult` record (src/types). -/
structure DeploymentResult where
  success : Bool
  url : Option String
  deploymentId : Option String
  logs : Option (List String)
  error : Option String
deriving DecidableEq, Repr

/-- The `try` body of `deployToVercel` (vercel.ts, lines 229-261): construct
    the service (throws when no token), look up the project (create it when
    absent), set env variables when provided, trigger a deployment, and wait
    for it. Returns the thrown-or-returned outcome and the request count. -/
def vercelTryBody (env : VercelEnv) (config : DeploymentConfig) :
    Except String (String × String) × Nat :=
  if env.tokenPresent = false then (.error "Vercel token not configured", 0)
  else
    match env.getProjectResult with
    | .error e => (.error e, 1)
    | .ok projOpt =>
      match (match projOpt with
             | some p => ((Except.ok p : Except String VercelProject), 1)
             | none =>
               match env.createProjectResult with
               | .error e => (.error e, 2)
               | .ok p => (.ok p, 2)) with
      | (.error e, c) => (.error e, c)
      | (.ok _proj, c) =>
        match (if config.envVariables.isSome then
                 match env.setEnvResult with
                 | .error e => ((Except.error e : Except String Unit), c + 1)
                 | .ok u => (.ok u, c + 1)
               else (.ok (), c)) with
        | (.error e, c2) => (.error e, c2)
        | (.ok _, c2) =>
          match env.createDeploymentResult with
          | .error e => (.error e, c2 + 1)
          | .ok _d =>
            match waitForDeploymentGo env.pollResult 0 (c2 + 1)
                (pollBudget 300000) with
            | (.error e, c3) => (.error e, c3)
            | (.ok fin, c3) => (.ok (fin.url, fin.id), c3)

/-- `deployToVercel` (vercel.ts, lines 226-268): the try body with every
    thrown error caught and turned into a `success: false` result carrying the
    error message. -/
def deployToVercel (env : VercelEnv) (config : DeploymentConfig) :
    DeploymentResult × Nat :=
  match vercelTryBody env config with
  | (.ok (url, depId), c) =>
    ({ success := true, url := some ("https://" ++ url),
       deploymentId := some depId, logs := some [], error := none }, c)
  | (.error e, c) =>
    ({ success := false, url := none, deploymentId := none, logs := none,
       error := some e }, c)

/-- `deploy` (src/lib/deploy/index.ts, lines 41-77): the provider switch.
    Only `vercel` does anything; `netlify` and `github-pages` return a typed
    not-implemented failure and the default branch an unknown-provider
    failure, none of them issuing a request. -/
def deploy (env : VercelEnv) (provider : String) (config : DeploymentConfig) :
    DeploymentResult × Nat :=
  if provider = "vercel" then deployToVercel env config
  else if provider = "netlify" then
    ({ success := false, url := none, deploymentId := none, logs := none,
       error := some "Netlify deployment not yet implemented" }, 0)
  else if provider = "github-pages" then
    ({ success := false, url := none, deploymentId := none, logs := none,
       error := some "GitHub Pages deployment not yet implemented" }, 0)
  else
    ({ success := false, url := none, deploymentId := none, logs := none,
       error := some ("Unknown deployment provider: " ++ provider) }, 0)

/-- Result shape of `createAndPushToGitHub` (index.ts, lines 82-133), which
    wraps all its GitHub work in a try/catch and so never throws. -/
structure CreatePushResult where
  success : Bool
  repoUrl : Option String
  error : Option String
deriving DecidableEq, Repr

/-- External outcomes driving `fullDeploymentPipeline`. -/
structure DeployEnv where
  github : CreatePushResult
  vercel : VercelEnv

/-- Result of `fullDeploymentPipeline`. -/
structure FullPipelineResult where
  success : Bool
  githubUrl : Option String
  deploymentUrl : Option String
  error : Option String
deriving DecidableEq, Repr

/-- What the pipeline did: how often each phase ran, and how many deploy-target
    network requests were issued. -/
structure PipelineTrace where
  githubCalls : Nat
  deployInvocations : Nat
  deployRequests : Nat
deriving DecidableEq, Repr

/-- `fullDeploymentPipeline` (index.ts, lines 138-180): phase 1 pushes to
    GitHub; on its failure the pipeline returns at once with the phase-1 error
    (the string interpolation prints `undefined` for an absent message, as
    JavaScript does); otherwise phase 2 dispatches to the deploy provider and
    the result aggregates both phases. -/
def fullDeploymentPipeline (env : DeployEnv) (projectName : String)
    (deployProvider : String) (envVariables : Option (List (String × String))) :
    FullPipelineResult × PipelineTrace :=
  let githubResult := env.github
  if githubResult.success = false then
    ({ success := false, githubUrl := none, deploymentUrl := none,
       error := some ("GitHub setup failed: " ++
         (githubResult.error.getD "undefined")) },
     { githubCalls := 1, deployInvocations := 0, deployRequests := 0 })
  else
    let (deployResult, n) := deploy env.vercel deployProvider
      { provider := deployProvider, projectName := projectName,
        envVariables := envVariables, buildCommand := none,
        outputDirectory := none }
    ({ success := deployResult.success, githubUrl := githubResult.repoUrl,
       deploymentUrl := deployResult.url, error := deployResult.error },
     { githubCalls := 1, deployInvocations := 1, deployRequests := n })

/-- C4: when the GitHub create-and-push phase fails, the deploy-target phase
    is never invoked (zero invocations, zero requests) and the pipeline result
    is a failure with no deployment URL and an error message present. -/
theorem c4_github_failure_aborts_pipeline (env : DeployEnv)
    (projectName deployProvider : String)
    (envVariables : Option (List (String × String)))
    (h : env.github.success = false) :
    (fullDeploymentPipeline env projectName deployProvider envVariables).2.deployInvocations = 0 ∧
    (fullDeploymentPipeline env projectName deployProvider envVariables).2.deployRequests = 0 ∧
    (fullDeploymentPipeline env projectName deployProvider envVariables).1.success = false ∧
    (fullDeploymentPipeline env projectName deployProvider envVariables).1.deploymentUrl = none ∧
    (fullDeploymentPipeline env projectName deployProvider envVariables).1.error.isSome = true := by
  simp [fullDeploymentPipeline, h]

/-- A GitHub phase outcome that failed. -/
def failedGithubPush : CreatePushResult :=
  { success := false, repoUrl := none, error := some "API rate limit exceeded" }

/-- A Vercel environment with no token and every request failing; used only to
    instantiate theorems at a concrete point. -/
def sampleVercelEnv : VercelEnv :=
  { tokenPresent := false, getProjectResult := .error "unreachable",
    createProjectResult := .error "unreachable", setEnvResult := .error "unreachable",
    createDeploymentResult := .error "unreachable",
    pollResult := fun _ => .error "unreachable" }

/-- Witness for C4 at a concrete failed GitHub push. -/
theorem c4_witness :
    ({ github := failedGithubPush, vercel := sampleVercelEnv } : DeployEnv).github.success = false ∧
    (fullDeploymentPipeline { github := failedGithubPush, vercel := sampleVercelEnv }
        "my-app" "vercel" none).2.deployInvocations = 0 := by
  exact ⟨rfl,
    (c4_github_failure_aborts_pipeline
      { github := failedGithubPush, vercel := sampleVercelEnv }
      "my-app" "vercel" none rfl).1⟩

/-- With only non-terminal states in reach, the wait loop spends all its fuel
    and times out. -/
theorem waitGo_no_terminal (states : Nat → VercelState) (id url : String) :
    ∀ n k c, (∀ j, j < n → isTerminalVState (states (k + j)) = false) →
      waitForDeploymentGo (fun x => .ok ⟨id, url, states x⟩) k c n =
        (.error "Deployment timed out", c + n)
  | 0, k, c, _ => by simp [waitForDeploymentGo]
  | n + 1, k, c, h => by
    have h0 : isTerminalVState (states k) = false := by
      simpa using h 0 (Nat.succ_pos n)
    have hrest : ∀ j, j < n → isTerminalVState (states (k + 1 + j)) = false :=
      fun j hj => by
        have := h (j + 1) (Nat.succ_lt_succ hj)
        simpa [Nat.add_comm, Nat.add_left_comm, Nat.add_assoc] using this
    have ih := waitGo_no_terminal states id url n (k + 1) (c + 1) hrest
    cases hS : states k with
    | READY => simp [isTerminalVState, hS] at h0
    | ERROR => simp [isTerminalVState, hS] at h0
    | CANCELED => simp [isTerminalVState, hS] at h0
    | QUEUED =>
      rw [waitForDeploymentGo]
      simp only [hS]
      rw [if_neg (by simp), if_neg (by simp)]
      rw [ih]
      have hc : c + 1 + n = c + (n + 1) := by omega
      rw [hc]
    | BUILDING =>
      rw [waitForDeploymentGo]
      simp only [hS]
      rw [if_neg (by simp), if_neg (by simp)]
      rw [ih]
      have hc : c + 1 + n = c + (n + 1) := by omega
      rw [hc]

/-- If the first terminal state appears at poll `i` within the fuel, the loop
    stops there: `READY` returns that deployment, `ERROR`/`CANCELED` raise the
    terminal-state error. -/
theorem waitGo_first_terminal (states : Nat → VercelState) (id url : String) :
    ∀ i n k c, i < n →
      (∀ j, j < i → isTerminalVState (states (k + j)) = false) →
      isTerminalVState (states (k + i)) = true →
      waitForDeploymentGo (fun x => .ok ⟨id, url, states x⟩) k c n =
        (if states (k + i) = .READY then
          (.ok ⟨id, url, states (k + i)⟩, c + i + 1)
         else
          (.error ("Deployment failed with state: " ++
            vercelStateText (states (k + i))), c + i + 1))
  | 0, n, k, c, hn, _, hterm => by
    obtain ⟨m, rfl⟩ : ∃ m, n = m + 1 := ⟨n - 1, by omega⟩
    simp only [Nat.add_zero] at hterm ⊢
    rw [waitForDeploymentGo]
    cases hS : states k with
    | QUEUED => rw [hS] at hterm; simp [isTerminalVState] at hterm
    | BUILDING => rw [hS] at hterm; simp [isTerminalVState] at hterm
    | READY => simp [hS]
    | ERROR => simp [hS]
    | CANCELED => simp [hS]
  | i + 1, n, k, c, hn, hpre, hterm => by
    obtain ⟨m, rfl⟩ : ∃ m, n = m + 1 := ⟨n - 1, by omega⟩
    have h0 : isTerminalVState (states k) = false := by
      simpa using hpre 0 (Nat.succ_pos i)
    have hpre' : ∀ j, j < i → isTerminalVState (states (k + 1 + j)) = false :=
      fun j hj => by
        have := hpre (j + 1) (Nat.succ_lt_succ hj)
        simpa [Nat.add_comm, Nat.add_left_comm, Nat.add_assoc] using this
    have hterm' : isTerminalVState (states (k + 1 + i)) = true := by
      have hx : k + 1 + i = k + (i + 1) := by omega
      rw [hx]; exact hterm
    have ih := waitGo_first_terminal states id url i m (k + 1) (c + 1)
      (by omega) hpre' hterm'
    have hx : k + 1 + i = k + (i + 1) := by omega
    rw [hx] at ih
    cases hS : states k with
    | READY => simp [isTerminalVState, hS] at h0
    | ERROR => simp [isTerminalVState, hS] at h0
    | CANCELED => simp [isTerminalVState, hS] at h0
    | QUEUED =>
      rw [waitForDeploymentGo]
      simp only [hS]
      rw [if_neg (by simp), if_neg (by simp)]
      rw [ih]
      have hc : c + 1 + i + 1 = c + (i + 1) + 1 := by omega
      rw [hc]
    | BUILDING =>
      rw [waitForDeploymentGo]
      simp only [hS]
      rw [if_neg (by simp), if_neg (by simp)]
      rw [ih]
      have hc : c + 1 + i + 1 = c + (i + 1) + 1 := by omega
      rw [hc]

/-- C6: over any polled state sequence, with the default 5-minute timeout and
    5-second interval (60 polls): reaching `READY` first returns the
    deployment (its id and live URL); reaching `ERROR` or `CANCELED` first
    fails with the error naming that terminal state; never reaching a terminal
    state within the window fails with the distinct timeout error, which
    differs from every terminal-state error message. -/
theorem c6_wait_loop_outcomes (states : Nat → VercelState) (id url : String) :
    (∀ i, i < 60 → (∀ j, j < i → isTerminalVState (states j) = false) →
      states i = .READY →
      (waitForDeployment (fun x => .ok ⟨id, url, states x⟩) 300000).1 =
        .ok ⟨id, url, .READY⟩) ∧
    (∀ i, i < 60 → (∀ j, j < i → isTerminalVState (states j) = false) →
      (states i = .ERROR ∨ states i = .CANCELED) →
      (waitForDeployment (fun x => .ok ⟨id, url, states x⟩) 300000).1 =
        .error ("Deployment failed with state: " ++ vercelStateText (states i))) ∧
    ((∀ i, i < 60 → isTerminalVState (states i) = false) →
      (waitForDeployment (fun x => .ok ⟨id, url, states x⟩) 300000).1 =
        .error "Deployment timed out") ∧
    (∀ st : VercelState,
      ("Deployment timed out" : String) ≠
        "Deployment failed with state: " ++ vercelStateText st) := by
  have hbudget : pollBudget 300000 = 60 := by decide
  refine ⟨?_, ?_, ?_, by decide⟩
  · intro i hi hpre hready
    have := waitGo_first_terminal states id url i 60 0 0 hi
      (by simpa using hpre) (by simp [hready, isTerminalVState])
    simp only [Nat.zero_add] at this
    rw [waitForDeployment, hbudget, this, if_pos hready, hready]
  · intro i hi hpre hfail
    have hterm : isTerminalVState (states i) = true := by
      rcases hfail with h | h <;> simp [h, isTerminalVState]
    have hne : ¬ states i = .READY := by
      rcases hfail with h | h <;> simp [h]
    have := waitGo_first_terminal states id url i 60 0 0 hi
      (by simpa using hpre) (by simpa using hterm)
    simp only [Nat.zero_add] at this
    rw [waitForDeployment, hbudget, this, if_neg hne]
  · intro hall
    have := waitGo_no_terminal states id url 60 0 0 (by simpa using hall)
    rw [waitForDeployment, hbudget, this]

/-- Witness for C6 at a concrete state sequence that never leaves BUILDING:
    the loop times out with the distinct timeout error. -/
theorem c6_witness :
    (waitForDeployment
      (fun x => .ok ⟨"dep1", "app.vercel.app", (fun _ => VercelState.BUILDING) x⟩)
      300000).1 = .error "Deployment timed out" :=
  (c6_wait_loop_outcomes (fun _ => VercelState.BUILDING) "dep1"
    "app.vercel.app").2.2.1 (fun _ _ => rfl)

/-- C10: the deploy dispatch never throws — on every environment it returns a
    structured result where failure always carries an error message and
    success never does — the unimplemented providers `netlify` and
    `github-pages` and any unknown provider fail with their fixed messages
    without issuing a single network request, and a missing Vercel token is
    caught before any request as well. -/
theorem c10_deploy_total_and_structured (env : VercelEnv) (provider : String)
    (config : DeploymentConfig) :
    ((deploy env provider config).1.success = false →
      (deploy env provider config).1.error.isSome = true) ∧
    ((deploy env provider config).1.success = true →
      (deploy env provider config).1.error = none) ∧
    (deploy env "netlify" config =
      ({ success := false, url := none, deploymentId := none, logs := none,
         error := some "Netlify deployment not yet implemented" }, 0)) ∧
    (deploy env "github-pages" config =
      ({ success := false, url := none, deploymentId := none, logs := none,
         error := some "GitHub Pages deployment not yet implemented" }, 0)) ∧
    (provider ≠ "vercel" → provider ≠ "netlify" → provider ≠ "github-pages" →
      deploy env provider config =
        ({ success := false, url := none, deploymentId := none, logs := none,
           error := some ("Unknown deployment provider: " ++ provider) }, 0)) ∧
    (env.tokenPresent = false →
      deploy env "vercel" config =
        ({ success := false, url := none, deploymentId := none, logs := none,
           error := some "Vercel token not configured" }, 0)) := by
  refine ⟨?_, ?_, by simp [deploy], by simp [deploy], ?_, ?_⟩
  · intro hfail
    by_cases hv : provider = "vercel"
    · rcases hb : vercelTryBody env config with ⟨res, n⟩
      cases res with
      | ok v =>
        exfalso
        rcases v with ⟨u, d⟩
        simp [deploy, hv, deployToVercel, hb] at hfail
      | error e => simp [deploy, hv, deployToVercel, hb]
    · by_cases hn : provider = "netlify"
      · simp [deploy, hn]
      · by_cases hg : provider = "github-pages"
        · simp [deploy, hg]
        · simp [deploy, hv, hn, hg]
  · intro hsucc
    by_cases hv : provider = "vercel"
    · rcases hb : vercelTryBody env config with ⟨res, n⟩
      cases res with
      | ok v =>
        rcases v with ⟨u, d⟩
        simp [deploy, hv, deployToVercel, hb]
      | error e =>
        exfalso
        simp [deploy, hv, deployToVercel, hb] at hsucc
    · by_cases hn : provider = "netlify"
      · simp [deploy, hn] at hsucc
      · by_cases hg : provider = "github-pages"
        · simp [deploy, hg] at hsucc
        · simp [deploy, hv, hn, hg] at hsucc
  · intro hv hn hg
    simp [deploy, hv, hn, hg]
  · intro htoken
    simp [deploy, deployToVercel, vercelTryBody, htoken]

/-- Witness for C10 at a concrete tokenless environment: the vercel branch is
    caught before any request, and the unknown-provider branch issues none. -/
theorem c10_witness :
    deploy sampleVercelEnv "vercel"
        { provider := "vercel", projectName := "my-app", envVariables := none,
          buildCommand := none, outputDirectory := none } =
      ({ success := false, url := none, deploymentId := none, logs := none,
         error := some "Vercel token not configured" }, 0) :=
  (c10_deploy_total_and_structured sampleVercelEnv "vercel"
    { provider := "vercel", projectName := "my-app", envVariables := none,
      buildCommand := none, outputDirectory := none }).2.2.2.2.2 rfl

/-! ## GitHubService.pushFiles (src/lib/deploy, lines 276-335)

The temporary directory discipline: the whole body runs inside
`try ... finally { await rm(tempDir, { recursive: true, force: true }) }`.
Each fallible operation's outcome is drawn from an oracle; the filesystem
state tracked is whether the temporary directory exists. `rm` with
`force: true` removes the directory unconditionally and does not throw on a
missing path. -/

/-- Outcomes of the fallible operations inside `pushFiles`'s try body. -/
structure PushOracle where
  mkdirTempOk : Bool
  gitInitOk : Bool
  configEmailOk : Bool
  configNameOk : Bool
  writeFileOk : Nat → Bool
  gitAddOk : Bool
  gitCommitOk : Bool
  addRemoteOk : Bool
  pushOk : Bool
  forcePushOk : Bool
  gitLogOk : Bool
  latestHash : Option String

/-- Writing each file (with its parent `mkdir -p`), indexed in order. -/
def writeAllFiles (o : PushOracle) : Nat → List String → Except String Unit
  | _, [] => .ok ()
  | i, _ :: rest =>
    if o.writeFileOk i then writeAllFiles o (i + 1) rest
    else .error "write failed"

/-- The try body of `pushFiles`: create the temp directory, init and configure
    git, write every file, add/commit, add the token remote, push (retrying
    once with `--force` when the plain push is rejected), and read the latest
    commit hash (`log.latest?.hash || ""`). Returns the outcome together with
    whether the temp directory exists when the body finishes (normally or by
    throwing). -/
def pushFilesTryBody (owner repo : String) (files : List String)
    (o : PushOracle) : Except String (String × String) × Bool :=
  if o.mkdirTempOk = false then (.error "mkdir failed", false)
  else if o.gitInitOk = false then (.error "git init failed", true)
  else if o.configEmailOk = false then (.error "git config failed", true)
  else if o.configNameOk = false then (.error "git config failed", true)
  else
    match writeAllFiles o 0 files with
    | .error e => (.error e, true)
    | .ok _ =>
      if o.gitAddOk = false then (.error "git add failed", true)
      else if o.gitCommitOk = false then (.error "git commit failed", true)
      else if o.addRemoteOk = false then (.error "git remote add failed", true)
      else if (o.pushOk || o.forcePushOk) = false then
        (.error "git push failed", true)
      else if o.gitLogOk = false then (.error "git log failed", true)
      else
        (.ok (o.latestHash.getD "",
          "https://github.com/" ++ owner ++ "/" ++ repo), true)

/-- The whole of `pushFiles`: the try body, then the `finally` cleanup that
    removes the temp directory regardless of the body's outcome. -/
def pushFiles (owner repo : String) (files : List String) (o : PushOracle) :
    Except String (String × String) × Bool :=
  let (result, _tempDirAtExit) := pushFilesTryBody owner repo files o
  -- finally: await rm(tempDir, \x7b recursive: true, force: true \x7d)
  (result, false)

/-- C9: on every exit path — success, or a throw from any step — `pushFiles`
    returns with the temporary directory removed; and the removal is real:
    whenever the directory was actually created, it still exists when the try
    body finishes, so it is the `finally` cleanup that removes it. -/
theorem c9_temp_dir_always_removed (owner repo : String) (files : List String)
    (o : PushOracle) :
    (pushFiles owner repo files o).2 = false ∧
    (o.mkdirTempOk = true →
      (pushFilesTryBody owner repo files o).2 = true) := by
  constructor
  · rfl
  · intro hmk
    unfold pushFilesTryBody
    simp only [hmk]
    repeat' split
    all_goals simp_all

/-- Witness for C9 at a concrete oracle whose push step throws (plain and
    forced push both rejected): the directory exists at the end of the body
    and is removed by the cleanup. -/
theorem c9_witness :
    (pushFiles "octo" "app" ["index.js"]
      { mkdirTempOk := true, gitInitOk := true, configEmailOk := true,
        configNameOk := true, writeFileOk := fun _ => true, gitAddOk := true,
        gitCommitOk := true, addRemoteOk := true, pushOk := false,
        forcePushOk := false, gitLogOk := true, latestHash := none }).2 = false ∧
    (pushFilesTryBody "octo" "app" ["index.js"]
      { mkdirTempOk := true, gitInitOk := true, configEmailOk := true,
        configNameOk := true, writeFileOk := fun _ => true, gitAddOk := true,
        gitCommitOk := true, addRemoteOk := true, pushOk := false,
        forcePushOk := false, gitLogOk := true, latestHash := none }).2 = true :=
  ⟨(c9_temp_dir_always_removed "octo" "app" ["index.js"]
      { mkdirTempOk := true, gitInitOk := true, configEmailOk := true,
        configNameOk := true, writeFileOk := fun _ => true, gitAddOk := true,
        gitCommitOk := true, addRemoteOk := true, pushOk := false,
        forcePushOk := false, gitLogOk := true, latestHash := none }).1,
    (c9_temp_dir_always_removed "octo" "app" ["index.js"]
      { mkdirTempOk := true, gitInitOk := true, configEmailOk := true,
        configNameOk := true, writeFileOk := fun _ => true, gitAddOk := true,
        gitCommitOk := true, addRemoteOk := true, pushOk := false,
        forcePushOk := false, gitLogOk := true, latestHash := none }).2 rfl⟩

/-! ## Datastore records, completion triggers, and the API route flows

The generation flow (`POST /api/generate`, src/app/api/generate/route.ts,
lines 48-147) and the deployment flow (`POST /api/deploy`, lines 283-386 of
the same file set) are modelled as the sequence of datastore writes and
external calls they perform after their guards. Every datastore write runs
against the single project row (plus the flow's own sub-entity row) and fires
the SQL triggers of supabase/triggers.sql:
`validate_project_status` on each project-status write,
`generation_completed` on each code-generation status change and
`deployment_completed` on each deployment status change. Each fallible
operation's outcome is drawn from an oracle. -/

/-- `generation_status` enum. -/
inductive GenStatus where
  | PENDING | PROCESSING | COMPLETED | FAILED
deriving DecidableEq, Repr

/-- `deployment_status` enum. -/
inductive DeployStatus where
  | PENDING | BUILDING | SUCCESS | FAILED | CANCELLED
deriving DecidableEq, Repr

/-- The projects row, restricted to the fields the flows touch. -/
structure ProjectRec where
  status : ProjStatus
  version : Nat
  generatedFiles : Option (List (Option Json × Option Json))
  deploymentUrl : Option String
  githubRepo : Option String

/-- The code_generations row, restricted to the fields the flow touches. -/
structure CodeGenRec where
  status : GenStatus
  output : Option (List (Option Json × Option Json))
  errorMessage : Option String

/-- The deployments row, restricted to the fields the flow touches. -/
structure DeployRec where
  status : DeployStatus
  url : Option String
  errorMessage : Option String

/-- `trigger_generation_completed` (supabase/triggers.sql, lines 320-355),
    including the nested `validate_project_status` fired by its own project
    update: when the code-generation status changes to COMPLETED the project
    becomes GENERATED with `generated_files = COALESCE(NEW.output, ...)` and
    `version = version + 1`; when it changes to FAILED the project becomes
    FAILED only if it is currently GENERATING. An exception from the nested
    validation aborts the triggering update. -/
def applyGenerationCompleted (old new : CodeGenRec) (p : ProjectRec) :
    Except String ProjectRec :=
  if old.status = new.status then .ok p
  else if new.status = .COMPLETED then
    match trigger_validate_project_status p.status .GENERATED with
    | .error e => .error e
    | .ok _ =>
      .ok { p with
              status := .GENERATED
              generatedFiles := new.output <|> p.generatedFiles
              version := p.version + 1 }
  else if new.status = .FAILED then
    if p.status = .GENERATING then
      match trigger_validate_project_status p.status .FAILED with
      | .error e => .error e
      | .ok _ => .ok { p with status := .FAILED }
    else .ok p
  else .ok p

/-- `trigger_deployment_completed` (supabase/triggers.sql, lines 272-307),
    including the nested `validate_project_status`: a deployment status change
    to SUCCESS makes the project DEPLOYED with
    `deployment_url = COALESCE(NEW.url, ...)`; a change to FAILED makes the
    project FAILED only if it is currently DEPLOYING. -/
def applyDeploymentCompleted (old new : DeployRec) (p : ProjectRec) :
    Except String ProjectRec :=
  if old.status = new.status then .ok p
  else if new.status = .SUCCESS then
    match trigger_validate_project_status p.status .DEPLOYED with
    | .error e => .error e
    | .ok _ =>
      .ok { p with
              status := .DEPLOYED
              deploymentUrl := new.url <|> p.deploymentUrl }
  else if new.status = .FAILED then
    if p.status = .DEPLOYING then
      match trigger_validate_project_status p.status .FAILED with
      | .error e => .error e
      | .ok _ => .ok { p with status := .FAILED }
    else .ok p
  else .ok p

/-- A `db.project.update` writing `status` (and optionally `generatedFiles`,
    `deploymentUrl`, `githubRepo`); fails when the datastore does, or when the
    `validate_project_status` trigger raises. Fields passed as `none` are not
    part of the update and keep their values. -/
def dbUpdateProject (ok : Bool) (p : ProjectRec) (newStatus : ProjStatus)
    (files : Option (List (Option Json × Option Json)))
    (url repo : Option String) : Except String ProjectRec :=
  if ok = false then .error "database error"
  else
    match trigger_validate_project_status p.status newStatus with
    | .error e => .error e
    | .ok _ =>
      .ok { p with
              status := newStatus
              generatedFiles := files <|> p.generatedFiles
              deploymentUrl := url <|> p.deploymentUrl
              githubRepo := repo <|> p.githubRepo }

/-- A `db.codeGeneration.update` changing the status; fires
    `generation_completed`, whose project update may in turn raise. -/
def dbUpdateCodeGen (ok : Bool) (p : ProjectRec) (cg newCg : CodeGenRec) :
    Except String (ProjectRec × CodeGenRec) :=
  if ok = false then .error "database error"
  else
    match applyGenerationCompleted cg newCg p with
    | .error e => .error e
    | .ok p1 => .ok (p1, newCg)

/-- A `db.deployment.update` changing the status; fires
    `deployment_completed`, whose project update may in turn raise. -/
def dbUpdateDeployment (ok : Bool) (p : ProjectRec) (d newD : DeployRec) :
    Except String (ProjectRec × DeployRec) :=
  if ok = false then .error "database error"
  else
    match applyDeploymentCompleted d newD p with
    | .error e => .error e
    | .ok p1 => .ok (p1, newD)

/-- Outcome of an API route: the JSON success payload or an error response
    with its HTTP status code. -/
inductive RouteResponse where
  | success
  | failure (statusCode : Nat) (message : String)
deriving DecidableEq, Repr

def RouteResponse.isSuccess : RouteResponse → Bool
  | .success => true
  | .failure _ _ => false

/-- Outcomes of the fallible operations of the generation flow. -/
structure GenOracle where
  setGeneratingOk : Bool
  createCodeGenOk : Bool
  llmResult : Except String String
  updateCodeGenCompletedOk : Bool
  updateProjectGeneratedOk : Bool
  auditCreateOk : Bool
  updateCodeGenFailedOk : Bool
  updateProjectFailedOk : Bool
  auditErrorOk : Bool

/-- Final state of one generation-flow execution: the project row, the
    code-generation row (when its create committed), the HTTP response, and
    whether the GENERATING write committed. -/
structure GenFlowRun where
  project : ProjectRec
  codeGen : Option CodeGenRec
  response : RouteResponse
  setInProgress : Bool

/-- The inner `try` of the generate route (route.ts, lines 64-121): call the
    LLM, parse the response, mark the code generation COMPLETED with its
    output (firing `generation_completed`), mark the project GENERATED with
    the files, insert the audit entry. A throw carries the datastore state at
    the throw point to the catch. -/
def genTryBlock (p : ProjectRec) (cg : CodeGenRec) (o : GenOracle) :
    Except (ProjectRec × CodeGenRec × String) (ProjectRec × CodeGenRec) :=
  match o.llmResult with
  | .error e => .error (p, cg, e)
  | .ok content =>
    match parseCodeGenerationResponse content with
    | .error e => .error (p, cg, e)
    | .ok files =>
      match dbUpdateCodeGen o.updateCodeGenCompletedOk p cg
          { cg with status := .COMPLETED, output := some files } with
      | .error e => .error (p, cg, e)
      | .ok (p1, cg1) =>
        match dbUpdateProject o.updateProjectGeneratedOk p1 .GENERATED
            (some files) none none with
        | .error e => .error (p1, cg1, e)
        | .ok p2 =>
          if o.auditCreateOk = false then .error (p2, cg1, "audit insert failed")
          else .ok (p2, cg1)

/-- The `catch` of the generate route (route.ts, lines 122-147): mark the
    code generation FAILED with the message (firing `generation_completed`),
    mark the project FAILED, insert the ERROR audit entry, and rethrow — the
    outer handler answers 500. A throw from the recovery writes themselves
    propagates to the outer handler with the datastore state as it is. -/
def genCatchBlock (p : ProjectRec) (cg : CodeGenRec) (msg : String)
    (o : GenOracle) : GenFlowRun :=
  match dbUpdateCodeGen o.updateCodeGenFailedOk p cg
      { cg with status := .FAILED, errorMessage := some msg } with
  | .error e =>
    { project := p, codeGen := some cg, response := .failure 500 e,
      setInProgress := true }
  | .ok (p1, cg1) =>
    match dbUpdateProject o.updateProjectFailedOk p1 .FAILED none none none with
    | .error e =>
      { project := p1, codeGen := some cg1, response := .failure 500 e,
        setInProgress := true }
    | .ok p2 =>
      if o.auditErrorOk = false then
        { project := p2, codeGen := some cg1,
          response := .failure 500 "audit insert failed", setInProgress := true }
      else
        { project := p2, codeGen := some cg1, response := .failure 500 msg,
          setInProgress := true }

/-- The generation flow after its auth/ownership guards (route.ts, lines
    48-147): set the project GENERATING, create the code-generation row in
    PROCESSING, then run the guarded section with its catch. -/
def generateFlow (p : ProjectRec) (o : GenOracle) : GenFlowRun :=
  match dbUpdateProject o.setGeneratingOk p .GENERATING none none none with
  | .error e =>
    { project := p, codeGen := none, response := .failure 500 e,
      setInProgress := false }
  | .ok p1 =>
    if o.createCodeGenOk = false then
      { project := p1, codeGen := none,
        response := .failure 500 "database error", setInProgress := true }
    else
      match genTryBlock p1
          { status := .PROCESSING, output := none, errorMessage := none } o with
      | .ok (p2, cg2) =>
        { project := p2, codeGen := some cg2, response := .success,
          setInProgress := true }
      | .error (p2, cg2, msg) => genCatchBlock p2 cg2 msg o

/-- Outcomes of the fallible operations of the deployment flow, and its
    guards. -/
structure DeployOracle where
  sessionAuth : Bool
  providerConfigured : Bool
  projectFound : Bool
  ownerOk : Bool
  setDeployingOk : Bool
  createDeploymentOk : Bool
  updateBuildingOk : Bool
  pipelineEnv : DeployEnv
  updateDeploySuccessOk : Bool
  updateProjectDeployedOk : Bool
  auditCreateOk : Bool
  updateDeployFailedOk : Bool
  updateProjectFailedOk : Bool
  auditErrorOk : Bool

/-- Final state of one deployment-flow execution. `adapterRequests` counts
    GitHub calls plus deploy-target network requests;
    `pipelineInvocations` counts runs of `fullDeploymentPipeline`. -/
structure DeployFlowRun where
  project : ProjectRec
  deployment : Option DeployRec
  response : RouteResponse
  adapterRequests : Nat
  pipelineInvocations : Nat
  setInProgress : Bool

/-- The inner `try` of the deploy route (lines 298-357 of the deploy handler):
    mark the deployment BUILDING, run the full pipeline, and on success mark
    the deployment SUCCESS (firing `deployment_completed`), the project
    DEPLOYED with its URLs, and the audit entry; a non-success pipeline result
    is thrown as an error. Throws carry the datastore state plus the request
    and invocation counts so far. -/
def deployTryBlock (p : ProjectRec) (d : DeployRec)
    (projectName provider : String)
    (envVariables : Option (List (String × String))) (o : DeployOracle) :
    Except (ProjectRec × DeployRec × String × Nat × Nat)
      (ProjectRec × DeployRec × Nat × Nat) :=
  match dbUpdateDeployment o.updateBuildingOk p d
      { d with status := .BUILDING } with
  | .error e => .error (p, d, e, 0, 0)
  | .ok (p1, d1) =>
    match fullDeploymentPipeline o.pipelineEnv projectName provider
        envVariables with
    | (result, trace) =>
      if result.success = true then
        match dbUpdateDeployment o.updateDeploySuccessOk p1 d1
            { d1 with status := .SUCCESS, url := result.deploymentUrl } with
        | .error e =>
          .error (p1, d1, e, trace.githubCalls + trace.deployRequests, 1)
        | .ok (p2, d2) =>
          match dbUpdateProject o.updateProjectDeployedOk p2 .DEPLOYED none
              result.deploymentUrl result.githubUrl with
          | .error e =>
            .error (p2, d2, e, trace.githubCalls + trace.deployRequests, 1)
          | .ok p3 =>
            if o.auditCreateOk = false then
              .error (p3, d2, "audit insert failed",
                trace.githubCalls + trace.deployRequests, 1)
            else .ok (p3, d2, trace.githubCalls + trace.deployRequests, 1)
      else
        .error (p1, d1, result.error.getD "Deployment failed",
          trace.githubCalls + trace.deployRequests, 1)

/-- The `catch` of the deploy route: mark the deployment FAILED with the
    message (firing `deployment_completed`), the project FAILED, insert the
    ERROR audit entry, rethrow — answered as 500. -/
def deployCatchBlock (p : ProjectRec) (d : DeployRec) (msg : String)
    (reqs invs : Nat) (o : DeployOracle) : DeployFlowRun :=
  match dbUpdateDeployment o.updateDeployFailedOk p d
      { d with status := .FAILED, errorMessage := some msg } with
  | .error e =>
    { project := p, deployment := some d, response := .failure 500 e,
      adapterRequests := reqs, pipelineInvocations := invs,
      setInProgress := true }
  | .ok (p1, d1) =>
    match dbUpdateProject o.updateProjectFailedOk p1 .FAILED none none none with
    | .error e =>
      { project := p1, deployment := some d1, response := .failure 500 e,
        adapterRequests := reqs, pipelineInvocations := invs,
        setInProgress := true }
    | .ok p2 =>
      if o.auditErrorOk = false then
        { project := p2, deployment := some d1,
          response := .failure 500 "audit insert failed",
          adapterRequests := reqs, pipelineInvocations := invs,
          setInProgress := true }
      else
        { project := p2, deployment := some d1, response := .failure 500 msg,
          adapterRequests := reqs, pipelineInvocations := invs,
          setInProgress := true }

/-- The deployment flow (the deploy route handler): session, provider
    configuration, project existence and ownership guards; the
    generated-files/GENERATED-status guard; then set the project DEPLOYING,
    create the deployment row in PENDING, and run the guarded section with
    its catch. -/
def deployFlow (p : ProjectRec) (projectName provider : String)
    (envVariables : Option (List (String × String))) (o : DeployOracle) :
    DeployFlowRun :=
  if o.sessionAuth = false then
    { project := p, deployment := none,
      response := .failure 401 "Unauthorized", adapterRequests := 0,
      pipelineInvocations := 0, setInProgress := false }
  else if o.providerConfigured = false then
    { project := p, deployment := none,
      response := .failure 400 ("Provider " ++ provider ++ " is not configured"),
      adapterRequests := 0, pipelineInvocations := 0, setInProgress := false }
  else if o.projectFound = false then
    { project := p, deployment := none,
      response := .failure 404 "Project not found", adapterRequests := 0,
      pipelineInvocations := 0, setInProgress := false }
  else if o.ownerOk = false then
    { project := p, deployment := none, response := .failure 403 "Forbidden",
      adapterRequests := 0, pipelineInvocations := 0, setInProgress := false }
  else if p.generatedFiles.isNone = true ∨ p.status ≠ .GENERATED then
    { project := p, deployment := none,
      response := .failure 400 "Project must have generated code before deployment",
      adapterRequests := 0, pipelineInvocations := 0, setInProgress := false }
  else
    match dbUpdateProject o.setDeployingOk p .DEPLOYING none none none with
    | .error e =>
      { project := p, deployment := none, response := .failure 500 e,
        adapterRequests := 0, pipelineInvocations := 0, setInProgress := false }
    | .ok p1 =>
      if o.createDeploymentOk = false then
        { project := p1, deployment := none,
          response := .failure 500 "database error", adapterRequests := 0,
          pipelineInvocations := 0, setInProgress := true }
      else
        match deployTryBlock p1
            { status := .PENDING, url := none, errorMessage := none }
            projectName provider envVariables o with
        | .ok (p2, d2, reqs, invs) =>
          { project := p2, deployment := some d2, response := .success,
            adapterRequests := reqs, pipelineInvocations := invs,
            setInProgress := true }
        | .error (p2, d2, msg, reqs, invs) =>
          deployCatchBlock p2 d2 msg reqs invs o

/-- A committed project update has the requested status and an unchanged
    version. -/
theorem dbUpdateProject_ok_fields {ok : Bool} {p : ProjectRec}
    {st : ProjStatus} {files : Option (List (Option Json × Option Json))}
    {url repo : Option String} {p' : ProjectRec}
    (h : dbUpdateProject ok p st files url repo = .ok p') :
    p'.status = st ∧ p'.version = p.version := by
  unfold dbUpdateProject at h
  split at h
  · exact Except.noConfusion h
  · split at h
    · exact Except.noConfusion h
    · injection h with h'
      subst h'
      exact ⟨rfl, rfl⟩

/-- A committed COMPLETED update of a PROCESSING code generation leaves the
    project GENERATED with its version incremented by exactly one (the
    `generation_completed` trigger). -/
theorem dbUpdateCodeGen_completed_fields {ok : Bool} {p : ProjectRec}
    {cg : CodeGenRec} {fs : List (Option Json × Option Json)}
    {p' : ProjectRec} {cg' : CodeGenRec} (hcg : cg.status = .PROCESSING)
    (h : dbUpdateCodeGen ok p cg
      { cg with status := .COMPLETED, output := some fs } = .ok (p', cg')) :
    p'.status = .GENERATED ∧ p'.version = p.version + 1 := by
  unfold dbUpdateCodeGen at h
  split at h
  · exact Except.noConfusion h
  · split at h
    · exact Except.noConfusion h
    · rename_i p1 happ
      injection h with h'
      injection h' with ha hb
      subst ha
      simp only [applyGenerationCompleted, hcg] at happ
      rw [if_neg (by decide), if_pos trivial] at happ
      split at happ
      · exact Except.noConfusion happ
      · injection happ with h2
        constructor
        · rw [← h2]
        · rw [← h2]

/-- The catch of the generate route always answers an error response. -/
theorem genCatchBlock_response_failure (p : ProjectRec) (cg : CodeGenRec)
    (msg : String) (o : GenOracle) :
    (genCatchBlock p cg msg o).response.isSuccess = false := by
  unfold genCatchBlock
  repeat' split
  all_goals rfl

/-- When the recovery writes commit and the project is GENERATING or
    GENERATED at the throw point, the catch of the generate route leaves the
    project FAILED. -/
theorem genCatchBlock_failed {p : ProjectRec} {cg : CodeGenRec} {msg : String}
    {o : GenOracle} (h1 : o.updateCodeGenFailedOk = true)
    (h2 : o.updateProjectFailedOk = true)
    (hp : p.status = .GENERATING ∨ p.status = .GENERATED) :
    (genCatchBlock p cg msg o).project.status = .FAILED := by
  by_cases hcg : cg.status = .FAILED
  · rcases hp with hp | hp <;>
      simp [genCatchBlock, dbUpdateCodeGen, applyGenerationCompleted,
        dbUpdateProject, trigger_validate_project_status, validTargets,
        h1, h2, hp, hcg] <;>
      split <;> rfl
  · rcases hp with hp | hp <;>
      simp [genCatchBlock, dbUpdateCodeGen, applyGenerationCompleted,
        dbUpdateProject, trigger_validate_project_status, validTargets,
        h1, h2, hp, hcg] <;>
      split <;> rfl

/-- Through the try of the generate route, starting GENERATING with a
    PROCESSING code generation: a normal return has the project GENERATED with
    version incremented once; a throw leaves the project GENERATING or
    GENERATED. -/
theorem genTryBlock_states {p : ProjectRec} {cg : CodeGenRec} {o : GenOracle}
    (hp : p.status = .GENERATING) (hcg : cg.status = .PROCESSING) :
    (∀ p' cg', genTryBlock p cg o = .ok (p', cg') →
      p'.status = .GENERATED ∧ p'.version = p.version + 1) ∧
    (∀ p' cg' m, genTryBlock p cg o = .error (p', cg', m) →
      p'.status = .GENERATING ∨ p'.status = .GENERATED) := by
  constructor
  · intro p' cg' h
    unfold genTryBlock at h
    split at h
    · exact Except.noConfusion h
    · split at h
      · exact Except.noConfusion h
      · split at h
        · exact Except.noConfusion h
        · rename_i p1 cg1 hdb
          split at h
          · exact Except.noConfusion h
          · rename_i p2 hdb2
            split at h
            · exact Except.noConfusion h
            · injection h with h'
              injection h' with ha hb
              subst ha
              obtain ⟨hs2, hv2⟩ := dbUpdateProject_ok_fields hdb2
              obtain ⟨hs1, hv1⟩ := dbUpdateCodeGen_completed_fields hcg hdb
              exact ⟨hs2, by rw [hv2, hv1]⟩
  · intro p' cg' m h
    unfold genTryBlock at h
    split at h
    · injection h with h'
      injection h' with ha hb
      subst ha
      exact Or.inl hp
    · split at h
      · injection h with h'
        injection h' with ha hb
        subst ha
        exact Or.inl hp
      · split at h
        · injection h with h'
          injection h' with ha hb
          subst ha
          exact Or.inl hp
        · rename_i p1 cg1 hdb
          split at h
          · injection h with h'
            injection h' with ha hb
            subst ha
            exact Or.inr (dbUpdateCodeGen_completed_fields hcg hdb).1
          · rename_i p2 hdb2
            split at h
            · injection h with h'
              injection h' with ha hb
              subst ha
              exact Or.inr (dbUpdateProject_ok_fields hdb2).1
            · exact Except.noConfusion h

/-- C2: for every run of the generation flow that answers success (the code
    generation COMPLETED and the project GENERATED), the project's version
    after the run is exactly its version before plus one — the increment is
    performed once, by the `generation_completed` trigger firing on the
    COMPLETED update. -/
theorem c2_version_increments_once (p : ProjectRec) (o : GenOracle)
    (h : (generateFlow p o).response = .success) :
    (generateFlow p o).project.version = p.version + 1 := by
  unfold generateFlow at h ⊢
  cases h1 : dbUpdateProject o.setGeneratingOk p .GENERATING none none none with
  | error e => simp only [h1] at h; exact absurd h (by simp)
  | ok p1 =>
    simp only [h1] at h ⊢
    obtain ⟨hst1, hv1⟩ := dbUpdateProject_ok_fields h1
    by_cases hcr : o.createCodeGenOk = false
    · simp only [if_pos hcr] at h; exact absurd h (by simp)
    · simp only [if_neg hcr] at h ⊢
      cases h2 : genTryBlock p1
          { status := .PROCESSING, output := none, errorMessage := none } o with
      | ok pc =>
        obtain ⟨p2, cg2⟩ := pc
        simp only [h2] at h ⊢
        obtain ⟨hs2, hv2⟩ := (genTryBlock_states hst1 rfl).1 p2 cg2 h2
        rw [hv2, hv1]
      | error pe =>
        obtain ⟨p2, cg2, msg⟩ := pe
        simp only [h2] at h
        have := genCatchBlock_response_failure p2 cg2 msg o
        rw [h] at this
        exact absurd this (by simp [RouteResponse.isSuccess])

/-- A generation oracle whose every operation succeeds, with the LLM
    returning exactly the empty-files JSON object. -/
def allOkGenOracle : GenOracle :=
  { setGeneratingOk := true, createCodeGenOk := true,
    llmResult := .ok emptyFilesResponse, updateCodeGenCompletedOk := true,
    updateProjectGeneratedOk := true, auditCreateOk := true,
    updateCodeGenFailedOk := true, updateProjectFailedOk := true,
    auditErrorOk := true }

/-- A fresh DRAFT project at version 0. -/
def draftProject : ProjectRec :=
  { status := .DRAFT, version := 0, generatedFiles := none,
    deploymentUrl := none, githubRepo := none }

/-- Witness for C2: a concrete successful run from a DRAFT project at
    version 0 ends at version 1. -/
theorem c2_witness :
    (generateFlow draftProject allOkGenOracle).response = .success ∧
    (generateFlow draftProject allOkGenOracle).project.version = 0 + 1 :=
  ⟨rfl, c2_version_increments_once draftProject allOkGenOracle rfl⟩

/-- A project status the claim calls terminal. -/
def isTerminalProjStatus : ProjStatus → Bool
  | .GENERATED => true
  | .DEPLOYED => true
  | .FAILED => true
  | _ => false

/-- All datastore writes of the generation flow (the sub-entity create, the
    completion and recovery updates, the audit inserts) succeed; the LLM call
    and the parse may still fail arbitrarily. -/
def genDbWritesOk (o : GenOracle) : Prop :=
  o.createCodeGenOk = true ∧ o.updateCodeGenCompletedOk = true ∧
    o.updateProjectGeneratedOk = true ∧ o.auditCreateOk = true ∧
    o.updateCodeGenFailedOk = true ∧ o.updateProjectFailedOk = true ∧
    o.auditErrorOk = true

/-- All datastore writes of the deployment flow succeed; the pipeline itself
    may still fail arbitrarily. -/
def deployDbWritesOk (o : DeployOracle) : Prop :=
  o.createDeploymentOk = true ∧ o.updateBuildingOk = true ∧
    o.updateDeploySuccessOk = true ∧ o.updateProjectDeployedOk = true ∧
    o.auditCreateOk = true ∧ o.updateDeployFailedOk = true ∧
    o.updateProjectFailedOk = true ∧ o.auditErrorOk = true

/-- The catch of the deploy route always answers an error response. -/
theorem deployCatchBlock_response_failure (p : ProjectRec) (d : DeployRec)
    (msg : String) (reqs invs : Nat) (o : DeployOracle) :
    (deployCatchBlock p d msg reqs invs o).response.isSuccess = false := by
  unfold deployCatchBlock
  repeat' split
  all_goals rfl

/-- When the recovery writes commit and the project is DEPLOYING at the throw
    point, the catch of the deploy route leaves the project FAILED. -/
theorem deployCatchBlock_failed {p : ProjectRec} {d : DeployRec} {msg : String}
    {reqs invs : Nat} {o : DeployOracle} (h1 : o.updateDeployFailedOk = true)
    (h2 : o.updateProjectFailedOk = true) (hp : p.status = .DEPLOYING) :
    (deployCatchBlock p d msg reqs invs o).project.status = .FAILED := by
  by_cases hdf : d.status = .FAILED
  · simp [deployCatchBlock, dbUpdateDeployment, applyDeploymentCompleted,
      dbUpdateProject, trigger_validate_project_status, validTargets, h1, h2,
      hp, hdf]
    split <;> rfl
  · simp [deployCatchBlock, dbUpdateDeployment, applyDeploymentCompleted,
      dbUpdateProject, trigger_validate_project_status, validTargets, h1, h2,
      hp, hdf]
    split <;> rfl

/-- A normal return of the deploy route's try leaves the project DEPLOYED. -/
theorem deployTryBlock_ok_status {p : ProjectRec} {d : DeployRec}
    {projectName provider : String}
    {ev : Option (List (String × String))} {o : DeployOracle}
    {p' : ProjectRec} {d' : DeployRec} {r i : Nat}
    (h : deployTryBlock p d projectName provider ev o = .ok (p', d', r, i)) :
    p'.status = .DEPLOYED := by
  unfold deployTryBlock at h
  split at h
  · exact Except.noConfusion h
  · split at h
    split at h
    · split at h
      · exact Except.noConfusion h
      · split at h
        · exact Except.noConfusion h
        · rename_i p3 hdb3
          split at h
          · exact Except.noConfusion h
          · injection h with h'
            injection h' with ha hb
            subst ha
            exact (dbUpdateProject_ok_fields hdb3).1
    · exact Except.noConfusion h

/-- With all write flags up, starting from a DEPLOYING project and a PENDING
    deployment record, the only throw of the deploy route's try is the
    pipeline reporting failure, which leaves the project still DEPLOYING. -/
theorem deployTryBlock_writesOk_error {p : ProjectRec} {d : DeployRec}
    {projectName provider : String} {ev : Option (List (String × String))}
    {o : DeployOracle} (hb : o.updateBuildingOk = true)
    (hs : o.updateDeploySuccessOk = true) (hpd : o.updateProjectDeployedOk = true)
    (hac : o.auditCreateOk = true) (hp : p.status = .DEPLOYING)
    (hd : d.status = .PENDING) :
    ∀ p' d' m r i,
      deployTryBlock p d projectName provider ev o = .error (p', d', m, r, i) →
        p'.status = .DEPLOYING := by
  intro p' d' m r i h
  have hbuild : dbUpdateDeployment o.updateBuildingOk p d
      { d with status := .BUILDING } = .ok (p, { d with status := .BUILDING }) := by
    simp [dbUpdateDeployment, applyDeploymentCompleted, hb, hd]
  unfold deployTryBlock at h
  rcases hpl : fullDeploymentPipeline o.pipelineEnv projectName provider ev with
    ⟨result, trace⟩
  simp only [hbuild, hpl] at h
  by_cases hrs : result.success = true
  · rw [if_pos hrs] at h
    have hsuccess : dbUpdateDeployment o.updateDeploySuccessOk p
        { d with status := .BUILDING }
        { d with status := .SUCCESS, url := result.deploymentUrl } =
        .ok ({ p with
                 status := .DEPLOYED
                 deploymentUrl := result.deploymentUrl <|> p.deploymentUrl },
             { d with status := .SUCCESS, url := result.deploymentUrl }) := by
      simp [dbUpdateDeployment, applyDeploymentCompleted,
        trigger_validate_project_status, validTargets, hs, hp]
    have hdeployed : dbUpdateProject o.updateProjectDeployedOk
        { p with
            status := .DEPLOYED
            deploymentUrl := result.deploymentUrl <|> p.deploymentUrl }
        .DEPLOYED none result.deploymentUrl result.githubUrl =
        .ok { p with
                status := .DEPLOYED
                deploymentUrl :=
                  result.deploymentUrl <|>
                    (result.deploymentUrl <|> p.deploymentUrl)
                githubRepo := result.githubUrl <|> p.githubRepo } := by
      simp [dbUpdateProject, trigger_validate_project_status, hpd]
    simp only [hsuccess, hdeployed] at h
    rw [if_neg (by simp [hac])] at h
    exact Except.noConfusion h
  · rw [if_neg hrs] at h
    injection h with h'
    injection h' with ha hb2
    subst ha
    exact hp

/-- C3 (counterexample): a concrete execution of the generation flow in which
    the project is set to GENERATING but the creation of the CodeGeneration
    row then throws: the flow returns (with a 500 response) while the project
    is still GENERATING — a non-terminal status — refuting the claim that no
    thrown error can leave the project stuck in an in-progress status. -/
theorem c3_stuck_in_generating_counterexample :
    (generateFlow draftProject
      { allOkGenOracle with createCodeGenOk := false }).setInProgress = true ∧
    (generateFlow draftProject
      { allOkGenOracle with createCodeGenOk := false }).project.status =
        .GENERATING ∧
    isTerminalProjStatus .GENERATING = false ∧
    (generateFlow draftProject
      { allOkGenOracle with createCodeGenOk := false }).response.isSuccess =
        false :=
  ⟨rfl, rfl, rfl, rfl⟩

/-- C3 (amended): provided the datastore writes themselves succeed — in
    particular the sub-entity create that sits between the in-progress write
    and the guarded section — any error thrown by the external calls (LLM
    generate, response parse, deployment pipeline) still ends each flow with a
    terminal project status (GENERATED, DEPLOYED, or FAILED); an error thrown
    by the sub-entity create itself can leave the Project in the in-progress
    status. -/
theorem c3_terminal_when_db_writes_ok (pg : ProjectRec) (og : GenOracle)
    (pd : ProjectRec) (projectName provider : String)
    (ev : Option (List (String × String))) (od : DeployOracle) :
    (genDbWritesOk og → (generateFlow pg og).setInProgress = true →
      isTerminalProjStatus (generateFlow pg og).project.status = true) ∧
    (deployDbWritesOk od →
      (deployFlow pd projectName provider ev od).setInProgress = true →
      isTerminalProjStatus
        (deployFlow pd projectName provider ev od).project.status = true) := by
  constructor
  · intro hdb hset
    obtain ⟨hcr, hcc, hpg2, hac, hcf, hpf, hae⟩ := hdb
    unfold generateFlow at hset ⊢
    cases h1 : dbUpdateProject og.setGeneratingOk pg .GENERATING none none none with
    | error e => simp only [h1] at hset; exact absurd hset (by simp)
    | ok p1 =>
      simp only [h1] at hset ⊢
      obtain ⟨hst1, _⟩ := dbUpdateProject_ok_fields h1
      rw [if_neg (by simp [hcr])] at hset ⊢
      cases h2 : genTryBlock p1
          { status := .PROCESSING, output := none, errorMessage := none } og with
      | ok pc =>
        obtain ⟨p2, cg2⟩ := pc
        simp only [h2]
        rw [(genTryBlock_states hst1 rfl).1 p2 cg2 h2 |>.1]
        rfl
      | error pe =>
        obtain ⟨p2, cg2, msg⟩ := pe
        simp only [h2]
        have hp2 := (genTryBlock_states hst1 rfl).2 p2 cg2 msg h2
        rw [genCatchBlock_failed hcf hpf hp2]
        rfl
  · intro hdb hset
    obtain ⟨hcd, hbu, hds, hpd, hac, hdf, hpf, hae⟩ := hdb
    unfold deployFlow at hset ⊢
    by_cases g1 : od.sessionAuth = false
    · rw [if_pos g1] at hset; exact absurd hset (by simp)
    · rw [if_neg g1] at hset ⊢
      by_cases g2 : od.providerConfigured = false
      · rw [if_pos g2] at hset; exact absurd hset (by simp)
      · rw [if_neg g2] at hset ⊢
        by_cases g3 : od.projectFound = false
        · rw [if_pos g3] at hset; exact absurd hset (by simp)
        · rw [if_neg g3] at hset ⊢
          by_cases g4 : od.ownerOk = false
          · rw [if_pos g4] at hset; exact absurd hset (by simp)
          · rw [if_neg g4] at hset ⊢
            by_cases g5 : pd.generatedFiles.isNone = true ∨
                pd.status ≠ .GENERATED
            · rw [if_pos g5] at hset; exact absurd hset (by simp)
            · rw [if_neg g5] at hset ⊢
              cases h1 : dbUpdateProject od.setDeployingOk pd .DEPLOYING
                  none none none with
              | error e => simp only [h1] at hset; exact absurd hset (by simp)
              | ok p1 =>
                simp only [h1] at hset ⊢
                obtain ⟨hst1, _⟩ := dbUpdateProject_ok_fields h1
                rw [if_neg (by simp [hcd])] at hset ⊢
                cases h2 : deployTryBlock p1
                    { status := .PENDING, url := none, errorMessage := none }
                    projectName provider ev od with
                | ok pc =>
                  obtain ⟨p2, d2, r, i⟩ := pc
                  simp only [h2]
                  rw [deployTryBlock_ok_status h2]
                  rfl
                | error pe =>
                  obtain ⟨p2, d2, msg, r, i⟩ := pe
                  simp only [h2]
                  have hp2 := deployTryBlock_writesOk_error hbu hds hpd hac
                    hst1 rfl p2 d2 msg r i h2
                  rw [deployCatchBlock_failed hdf hpf hp2]
                  rfl

/-- Witness for the amended C3 at a concrete input: the all-successful run
    from DRAFT ends GENERATED (terminal), and a run whose LLM call throws
    (with all datastore writes fine) ends FAILED (terminal). -/
theorem c3_witness :
    isTerminalProjStatus
      (generateFlow draftProject allOkGenOracle).project.status = true ∧
    isTerminalProjStatus
      (generateFlow draftProject
        { allOkGenOracle with llmResult := .error "rate limited" }).project.status
      = true :=
  ⟨(c3_terminal_when_db_writes_ok draftProject allOkGenOracle draftProject
      "my-app" "vercel" none
      { sessionAuth := true, providerConfigured := true, projectFound := true,
        ownerOk := true, setDeployingOk := true, createDeploymentOk := true,
        updateBuildingOk := true,
        pipelineEnv := { github := failedGithubPush, vercel := sampleVercelEnv },
        updateDeploySuccessOk := true, updateProjectDeployedOk := true,
        auditCreateOk := true, updateDeployFailedOk := true,
        updateProjectFailedOk := true, auditErrorOk := true }).1
    (by constructor <;> first | rfl | (constructor <;> first | rfl |
      (constructor <;> first | rfl | (constructor <;> first | rfl |
        (constructor <;> first | rfl | constructor <;> rfl))))) rfl,
   (c3_terminal_when_db_writes_ok draftProject
      { allOkGenOracle with llmResult := .error "rate limited" } draftProject
      "my-app" "vercel" none
      { sessionAuth := true, providerConfigured := true, projectFound := true,
        ownerOk := true, setDeployingOk := true, createDeploymentOk := true,
        updateBuildingOk := true,
        pipelineEnv := { github := failedGithubPush, vercel := sampleVercelEnv },
        updateDeploySuccessOk := true, updateProjectDeployedOk := true,
        auditCreateOk := true, updateDeployFailedOk := true,
        updateProjectFailedOk := true, auditErrorOk := true }).1
    (by constructor <;> first | rfl | (constructor <;> first | rfl |
      (constructor <;> first | rfl | (constructor <;> first | rfl |
        (constructor <;> first | rfl | constructor <;> rfl))))) rfl⟩

/-- C5: a deployment request on a project whose status is not GENERATED is
    rejected with an error before anything happens: the pipeline is never
    invoked, no adapter request is issued, and no Deployment record is
    created. -/
theorem c5_deploy_requires_generated (p : ProjectRec)
    (projectName provider : String) (ev : Option (List (String × String)))
    (o : DeployOracle) (h : p.status ≠ .GENERATED) :
    (deployFlow p projectName provider ev o).response.isSuccess = false ∧
    (deployFlow p projectName provider ev o).pipelineInvocations = 0 ∧
    (deployFlow p projectName provider ev o).adapterRequests = 0 ∧
    (deployFlow p projectName provider ev o).deployment = none := by
  unfold deployFlow
  by_cases g1 : o.sessionAuth = false
  · rw [if_pos g1]; exact ⟨rfl, rfl, rfl, rfl⟩
  · rw [if_neg g1]
    by_cases g2 : o.providerConfigured = false
    · rw [if_pos g2]; exact ⟨rfl, rfl, rfl, rfl⟩
    · rw [if_neg g2]
      by_cases g3 : o.projectFound = false
      · rw [if_pos g3]; exact ⟨rfl, rfl, rfl, rfl⟩
      · rw [if_neg g3]
        by_cases g4 : o.ownerOk = false
        · rw [if_pos g4]; exact ⟨rfl, rfl, rfl, rfl⟩
        · rw [if_neg g4]
          rw [if_pos (Or.inr h)]
          exact ⟨rfl, rfl, rfl, rfl⟩

/-- Witness for C5 at a concrete DRAFT project. -/
theorem c5_witness :
    (deployFlow draftProject "my-app" "vercel" none
      { sessionAuth := true, providerConfigured := true, projectFound := true,
        ownerOk := true, setDeployingOk := true, createDeploymentOk := true,
        updateBuildingOk := true,
        pipelineEnv := { github := failedGithubPush, vercel := sampleVercelEnv },
        updateDeploySuccessOk := true, updateProjectDeployedOk := true,
        auditCreateOk := true, updateDeployFailedOk := true,
        updateProjectFailedOk := true,
        auditErrorOk := true }).response.isSuccess = false ∧
    (deployFlow draftProject "my-app" "vercel" none
      { sessionAuth := true, providerConfigured := true, projectFound := true,
        ownerOk := true, setDeployingOk := true, createDeploymentOk := true,
        updateBuildingOk := true,
        pipelineEnv := { github := failedGithubPush, vercel := sampleVercelEnv },
        updateDeploySuccessOk := true, updateProjectDeployedOk := true,
        auditCreateOk := true, updateDeployFailedOk := true,
        updateProjectFailedOk := true,
        auditErrorOk := true }).pipelineInvocations = 0 ∧
    (deployFlow draftProject "my-app" "vercel" none
      { sessionAuth := true, providerConfigured := true, projectFound := true,
        ownerOk := true, setDeployingOk := true, createDeploymentOk := true,
        updateBuildingOk := true,
        pipelineEnv := { github := failedGithubPush, vercel := sampleVercelEnv },
        updateDeploySuccessOk := true, updateProjectDeployedOk := true,
        auditCreateOk := true, updateDeployFailedOk := true,
        updateProjectFailedOk := true,
        auditErrorOk := true }).adapterRequests = 0 ∧
    (deployFlow draftProject "my-app" "vercel" none
      { sessionAuth := true, providerConfigured := true, projectFound := true,
        ownerOk := true, setDeployingOk := true, createDeploymentOk := true,
        updateBuildingOk := true,
        pipelineEnv := { github := failedGithubPush, vercel := sampleVercelEnv },
        updateDeploySuccessOk := true, updateProjectDeployedOk := true,
        auditCreateOk := true, updateDeployFailedOk := true,
        updateProjectFailedOk := true,
        auditErrorOk := true }).deployment = none :=
  c5_deploy_requires_generated draftProject "my-app" "vercel" none
    { sessionAuth := true, providerConfigured := true, projectFound := true,
      ownerOk := true, setDeployingOk := true, createDeploymentOk := true,
      updateBuildingOk := true,
      pipelineEnv := { github := failedGithubPush, vercel := sampleVercelEnv },
      updateDeploySuccessOk := true, updateProjectDeployedOk := true,
      auditCreateOk := true, updateDeployFailedOk := true,
      updateProjectFailedOk := true, auditErrorOk := true }
    (by decide)

end ProjectScaffolder
